import Mathlib

set_option maxHeartbeats 1000000

/-!
Verification of the JTAG-AXI bridge LED control driver
(src/c_examples/digilent_jtag_control.c).

The C program drives a JTAG TAP through the Digilent Adept transport to
read and write a memory-mapped LED register behind a USER1 scan-chain
AXI bridge. This development embeds the driver shallowly:

- machine bytes and 32-bit words are Nat with explicit % 256 / % 16 masks,
  mirroring the C masks (& 0xFF, & 0xF); the C expression (x >> 8k) & 0xFF
  on a uint32 becomes x / 256 ^ k % 256;
- the 96-bit command frame built by led_write / led_read is a 12-element
  byte list, one element per cmd_data[i] assignment in the C source;
- the Digilent transport is an oracle environment: ok i tells whether the
  i-th transport call (DjtgPutTmsBits / DjtgPutTdiBits) succeeds, tdo i
  gives the bytes captured by the i-th call when capture is requested;
- each driver function returns its C int status code (0 or -1) together
  with the list of transport calls it issued and the next call index,
  so that call-order and no-call-on-error properties are statable;
- the standard IEEE 1149.1 TAP state machine is embedded separately to
  check the TMS bit sequences the driver issues against the TAP states
  its comments claim to reach.
-/

/-- JTAG-AXI bridge constant USER1_INSTRUCTION from the C header block. -/
def USER1_INSTRUCTION : Nat := 0x02

/-- JTAG-AXI bridge constant IR_LENGTH from the C header block. -/
def IR_LENGTH : Nat := 6

/-- JTAG-AXI bridge constant DR_LENGTH from the C header block. -/
def DR_LENGTH : Nat := 96

/-- JTAG-AXI bridge constant CMD_WRITE from the C header block. -/
def CMD_WRITE : Nat := 0x00000001

/-- JTAG-AXI bridge constant CMD_READ from the C header block. -/
def CMD_READ : Nat := 0x00000002

/-- JTAG-AXI bridge constant LED_BASE_ADDR from the C header block. -/
def LED_BASE_ADDR : Nat := 0x43C00000

/-- Byte k of the little-endian encoding of a 32-bit word x: the C
expression (x >> (8 * k)) & 0xFF. -/
def leByte (x k : Nat) : Nat := x / 256 ^ k % 256

/-- Byte i of a frame, 0 past the end: C array indexing frame[i] (all
indices used by the driver are in range). -/
def byteAt : List Nat → Nat → Nat
  | [], _ => 0
  | b :: _, 0 => b
  | _ :: rest, n + 1 => byteAt rest n

/-- The 12-byte command frame packed by led_write: one list element per
cmd_data[i] assignment. Bytes 0 to 3 are CMD_WRITE little-endian, bytes
4 to 7 are LED_BASE_ADDR little-endian, byte 8 is led_pattern & 0xF,
bytes 9 to 11 are zero. -/
def writeFrame (led_pattern : Nat) : List Nat :=
  [leByte CMD_WRITE 0, leByte CMD_WRITE 1, leByte CMD_WRITE 2, leByte CMD_WRITE 3,
   leByte LED_BASE_ADDR 0, leByte LED_BASE_ADDR 1,
   leByte LED_BASE_ADDR 2, leByte LED_BASE_ADDR 3,
   led_pattern % 16, 0, 0, 0]

/-- The 12-byte command frame packed by led_read: CMD_READ little-endian,
LED_BASE_ADDR little-endian, and the dummy data field left at its zero
initial value (cmd_data is zero-filled and bytes 8 to 11 are never
assigned). -/
def readCmdFrame : List Nat :=
  [leByte CMD_READ 0, leByte CMD_READ 1, leByte CMD_READ 2, leByte CMD_READ 3,
   leByte LED_BASE_ADDR 0, leByte LED_BASE_ADDR 1,
   leByte LED_BASE_ADDR 2, leByte LED_BASE_ADDR 3,
   0, 0, 0, 0]

/-- Extraction of the LED value from a captured response, as in led_read:
response[8] & 0xF. -/
def decodeResponse (response : List Nat) : Nat :=
  byteAt response 8 % 16

/-- Modelled from the spec and the IEEE 1149.1 standard it references:
the 16 states of the JTAG TAP controller. The C file drives the TAP only
through TMS bit patterns; the state machine itself lives in the device,
and the claims compare the TMS sequences the driver issues against the
states its comments say they reach. -/
inductive TapState
  | TestLogicReset
  | RunTestIdle
  | SelectDRScan
  | CaptureDR
  | ShiftDR
  | Exit1DR
  | PauseDR
  | Exit2DR
  | UpdateDR
  | SelectIRScan
  | CaptureIR
  | ShiftIR
  | Exit1IR
  | PauseIR
  | Exit2IR
  | UpdateIR
deriving DecidableEq

/-- One clock of the standard TAP state machine for a given TMS value. -/
def tapStep : TapState → Bool → TapState
  | .TestLogicReset, true => .TestLogicReset
  | .TestLogicReset, false => .RunTestIdle
  | .RunTestIdle, true => .SelectDRScan
  | .RunTestIdle, false => .RunTestIdle
  | .SelectDRScan, true => .SelectIRScan
  | .SelectDRScan, false => .CaptureDR
  | .CaptureDR, true => .Exit1DR
  | .CaptureDR, false => .ShiftDR
  | .ShiftDR, true => .Exit1DR
  | .ShiftDR, false => .ShiftDR
  | .Exit1DR, true => .UpdateDR
  | .Exit1DR, false => .PauseDR
  | .PauseDR, true => .Exit2DR
  | .PauseDR, false => .PauseDR
  | .Exit2DR, true => .UpdateDR
  | .Exit2DR, false => .ShiftDR
  | .UpdateDR, true => .SelectDRScan
  | .UpdateDR, false => .RunTestIdle
  | .SelectIRScan, true => .TestLogicReset
  | .SelectIRScan, false => .CaptureIR
  | .CaptureIR, true => .Exit1IR
  | .CaptureIR, false => .ShiftIR
  | .ShiftIR, true => .Exit1IR
  | .ShiftIR, false => .ShiftIR
  | .Exit1IR, true => .UpdateIR
  | .Exit1IR, false => .PauseIR
  | .PauseIR, true => .Exit2IR
  | .PauseIR, false => .PauseIR
  | .Exit2IR, true => .UpdateIR
  | .Exit2IR, false => .ShiftIR
  | .UpdateIR, true => .SelectDRScan
  | .UpdateIR, false => .RunTestIdle

/-- Run the TAP over a TMS bit sequence. -/
def tapRun (s : TapState) (tms : List Bool) : TapState :=
  tms.foldl tapStep s

/-- The n low bits of a pattern in the order DjtgPutTmsBits clocks them
out: least significant bit first. -/
def tmsBits (pattern n : Nat) : List Bool :=
  (List.range n).map (fun i => pattern.testBit i)

/-- The complete TMS activity of one jtag_shift_ir call: PutTmsBits(0x1F, 5),
PutTmsBits(0x01, 2), then TMS held low for the 6 instruction clocks of
PutTdiBits (fLastTms is fFalse), then PutTmsBits(0x03, 2). -/
def shiftIrTms : List Bool :=
  tmsBits 0x1F 5 ++ tmsBits 0x01 2 ++ List.replicate IR_LENGTH false ++ tmsBits 0x03 2

/-- The complete TMS activity of one jtag_shift_dr call: PutTmsBits(0x01, 3),
TMS held low for the 96 data clocks of PutTdiBits, then PutTmsBits(0x03, 2). -/
def shiftDrTms : List Bool :=
  tmsBits 0x01 3 ++ List.replicate DR_LENGTH false ++ tmsBits 0x03 2

/-- The jtag_axi_handle_t state the driver consults: the is_connected
flag. The hif transport handle and the device name are absorbed into
the transport environment. -/
structure JtagHandle where
  is_connected : Bool
deriving DecidableEq

/-- Oracle for the Digilent transport: ok i is the boolean result of the
i-th DjtgPutTmsBits / DjtgPutTdiBits call, tdo i the bytes that call
deposits in its TDO capture buffer when one is supplied. -/
structure TransportEnv where
  ok : Nat → Bool
  tdo : Nat → List Nat

/-- Record of one transport call: which primitive was invoked and with
what arguments (TMS pattern and bit count, or TDI bytes, bit count and
whether TDO is captured). -/
inductive TransportCall
  | tmsBitsCall : Nat → Nat → TransportCall
  | tdiBitsCall : List Nat → Nat → Bool → TransportCall
deriving DecidableEq

/-- jtag_shift_ir: guard on handle and connection, then four transport
calls in order, stopping at the first failure: PutTmsBits(0x1F, 5) reset,
PutTmsBits(0x01, 2) entry, PutTdiBits of the instruction byte over
IR_LENGTH bits without capture, PutTmsBits(0x03, 2) exit. Returns the C
status code, the calls issued, and the next call index. -/
def jtag_shift_ir (env : TransportEnv) (idx : Nat) (handle : Option JtagHandle)
    (instruction : Nat) : Int × List TransportCall × Nat :=
  match handle with
  | none => (-1, [], idx)
  | some h =>
    if h.is_connected = false then (-1, [], idx)
    else
      let c1 := TransportCall.tmsBitsCall 0x1F 5
      if env.ok idx = false then (-1, [c1], idx + 1)
      else
        let c2 := TransportCall.tmsBitsCall 0x01 2
        if env.ok (idx + 1) = false then (-1, [c1, c2], idx + 2)
        else
          let c3 := TransportCall.tdiBitsCall [instruction % 256] IR_LENGTH false
          if env.ok (idx + 2) = false then (-1, [c1, c2, c3], idx + 3)
          else
            let c4 := TransportCall.tmsBitsCall 0x03 2
            if env.ok (idx + 3) = false then (-1, [c1, c2, c3, c4], idx + 4)
            else (0, [c1, c2, c3, c4], idx + 4)

/-- jtag_shift_dr: guard on handle and connection, then three transport
calls in order, stopping at the first failure: PutTmsBits(0x01, 3) entry,
PutTdiBits of the frame over bit_count bits (capturing TDO when a
capture buffer is supplied), PutTmsBits(0x03, 2) exit. Also returns the
captured bytes once the TDI call has succeeded. -/
def jtag_shift_dr (env : TransportEnv) (idx : Nat) (handle : Option JtagHandle)
    (tdi_data : List Nat) (capture : Bool) (bit_count : Nat) :
    Int × Option (List Nat) × List TransportCall × Nat :=
  match handle with
  | none => (-1, none, [], idx)
  | some h =>
    if h.is_connected = false then (-1, none, [], idx)
    else
      let c1 := TransportCall.tmsBitsCall 0x01 3
      if env.ok idx = false then (-1, none, [c1], idx + 1)
      else
        let c2 := TransportCall.tdiBitsCall tdi_data bit_count capture
        if env.ok (idx + 1) = false then (-1, none, [c1, c2], idx + 2)
        else
          let captured := if capture then some (env.tdo (idx + 1)) else none
          let c3 := TransportCall.tmsBitsCall 0x03 2
          if env.ok (idx + 2) = false then (-1, captured, [c1, c2, c3], idx + 3)
          else (0, captured, [c1, c2, c3], idx + 3)

/-- led_write: guard on handle and connection, pack the 96-bit write
command, select USER1 via jtag_shift_ir, then shift the command via
jtag_shift_dr with no capture; return -1 as soon as either shift fails. -/
def led_write (env : TransportEnv) (idx : Nat) (handle : Option JtagHandle)
    (led_pattern : Nat) : Int × List TransportCall × Nat :=
  match handle with
  | none => (-1, [], idx)
  | some h =>
    if h.is_connected = false then (-1, [], idx)
    else
      let cmd_data := writeFrame led_pattern
      let s1 := jtag_shift_ir env idx (some h) USER1_INSTRUCTION
      if s1.1 ≠ 0 then (-1, s1.2.1, s1.2.2)
      else
        let s2 := jtag_shift_dr env s1.2.2 (some h) cmd_data false DR_LENGTH
        if s2.1 ≠ 0 then (-1, s1.2.1 ++ s2.2.2.1, s2.2.2.2)
        else (0, s1.2.1 ++ s2.2.2.1, s2.2.2.2)

/-- led_read: guard on handle, connection and the output pointer, pack
the 96-bit read command, select USER1 via jtag_shift_ir, shift via
jtag_shift_dr capturing the response, and decode byte 8 of the response
masked to the low nibble; return -1 as soon as either shift fails. -/
def led_read (env : TransportEnv) (idx : Nat) (handle : Option JtagHandle)
    (led_data_null : Bool) : Int × Option Nat × List TransportCall × Nat :=
  match handle with
  | none => (-1, none, [], idx)
  | some h =>
    if h.is_connected = false then (-1, none, [], idx)
    else if led_data_null then (-1, none, [], idx)
    else
      let s1 := jtag_shift_ir env idx (some h) USER1_INSTRUCTION
      if s1.1 ≠ 0 then (-1, none, s1.2.1, s1.2.2)
      else
        let s2 := jtag_shift_dr env s1.2.2 (some h) readCmdFrame true DR_LENGTH
        if s2.1 ≠ 0 then (-1, none, s1.2.1 ++ s2.2.2.1, s2.2.2.2)
        else (0, s2.2.1.map decodeResponse, s1.2.1 ++ s2.2.2.1, s2.2.2.2)

/-- disconnect_device: a null handle or a session whose is_connected flag
is cleared returns 0 immediately; otherwise DjtgDisable and DmgrClose run
(the teardown flag in the result) and is_connected is cleared. Result:
status code, updated handle, whether transport teardown was invoked. -/
def disconnect_device : Option JtagHandle → Int × Option JtagHandle × Bool
  | none => (0, none, false)
  | some h =>
    if h.is_connected = false then (0, some h, false)
    else (0, some (JtagHandle.mk false), true)

/-- The pattern sweep of test_led_patterns. -/
def test_patterns : List Nat := [0x0, 0xF, 0xA, 0x5, 0x1, 0x2, 0x4, 0x8]

/-- test_led_patterns: for each pattern, led_write, and on write success
led_read for the verification compare; accumulates the transport calls. -/
def test_led_patterns (env : TransportEnv) (idx : Nat) (handle : Option JtagHandle) :
    List TransportCall × Nat :=
  test_patterns.foldl
    (fun acc p =>
      let s1 := led_write env acc.2 handle p
      if s1.1 = 0 then
        let s2 := led_read env s1.2.2 handle false
        (acc.1 ++ s1.2.1 ++ s2.2.2.1, s2.2.2.2)
      else
        (acc.1 ++ s1.2.1, s1.2.2))
    ([], idx)

/-- The action main selects from argv (argument parsing itself is the
external CLI collaborator): test, write of a pattern, read, or the
usage message. The default with no arguments is the test sweep. -/
inductive MainAction
  | actTest
  | actWrite : Nat → MainAction
  | actRead
  | actUsage

/-- main: DmgrOpen of the manager, device enumeration, connect_device,
then the selected action (whose status code main ignores), then cleanup.
Returns the process exit code and the transport calls of the action.
openOk is the DmgrOpen result, deviceCount the enumeration result,
connectOk the connect_device result. -/
def main_run (openOk : Bool) (deviceCount : Nat) (connectOk : Bool)
    (env : TransportEnv) (act : MainAction) : Int × List TransportCall :=
  if openOk = false then (1, [])
  else if deviceCount = 0 then (1, [])
  else if connectOk = false then (1, [])
  else
    let handle : Option JtagHandle := some (JtagHandle.mk true)
    let calls : List TransportCall :=
      match act with
      | .actTest => (test_led_patterns env 0 handle).1
      | .actWrite p => (led_write env 0 handle p).2.1
      | .actRead => (led_read env 0 handle false).2.2.1
      | .actUsage => []
    (0, calls)

/-- An always-succeeding transport oracle for concrete evaluations. -/
def env0 : TransportEnv := ⟨fun _ => true, fun _ => []⟩

theorem leByte_lt (x k : Nat) : leByte x k < 256 :=
  Nat.mod_lt _ (by norm_num)

theorem writeFrame_byte8 (p : Nat) : byteAt (writeFrame p) 8 = p % 16 := by
  show byteAt [leByte LED_BASE_ADDR 0, leByte LED_BASE_ADDR 1,
    leByte LED_BASE_ADDR 2, leByte LED_BASE_ADDR 3, p % 16, 0, 0, 0] 4 = p % 16
  show byteAt [p % 16, 0, 0, 0] 0 = p % 16
  rfl

theorem writeFrame_mod (p : Nat) : writeFrame p = writeFrame (p % 16) := by
  simp [writeFrame, Nat.mod_mod_of_dvd]

/-- C1: for every 4-bit pattern p, the write frame built by led_write
places p at byte offset 8 (the data-field position), and decoding at
that offset as led_read does (byte 8 masked to the low nibble) recovers
p exactly: the in-frame encode/decode round trip is the identity on
4-bit patterns. -/
theorem C1_frame_roundtrip (p : Nat) (hp : p < 16) :
    byteAt (writeFrame p) 8 = p ∧ decodeResponse (writeFrame p) = p := by
  have h : p % 16 = p := Nat.mod_eq_of_lt hp
  have h8 := writeFrame_byte8 p
  rw [h] at h8
  exact ⟨h8, by rw [decodeResponse, h8, h]⟩

theorem C1_frame_roundtrip_witness :
    13 < 16 ∧ (byteAt (writeFrame 13) 8 = 13 ∧ decodeResponse (writeFrame 13) = 13) :=
  ⟨by decide, C1_frame_roundtrip 13 (by decide)⟩

/-- C2: for every pattern, the write frame and the read command frame are
exactly 12 bytes (96 bits: every entry is a byte value below 256); bytes
0 to 3 are the little-endian bytes of the opcode (CMD_WRITE and CMD_READ
respectively, the four leByte values recombining to the 32-bit opcode),
bytes 4 to 7 the little-endian bytes of LED_BASE_ADDR, byte 8 carries
only the low nibble of the data (below 16), and bytes 9 to 11 are zero,
so the high 28 reserved bits of the data field are always zero. -/
theorem C2_frame_layout (p : Nat) :
    (writeFrame p).length = 12 ∧ readCmdFrame.length = 12 ∧
    (∀ b ∈ writeFrame p, b < 256) ∧ (∀ b ∈ readCmdFrame, b < 256) ∧
    (writeFrame p).take 4 =
      [leByte CMD_WRITE 0, leByte CMD_WRITE 1, leByte CMD_WRITE 2, leByte CMD_WRITE 3] ∧
    readCmdFrame.take 4 =
      [leByte CMD_READ 0, leByte CMD_READ 1, leByte CMD_READ 2, leByte CMD_READ 3] ∧
    (leByte CMD_WRITE 0 + 256 * leByte CMD_WRITE 1 +
      65536 * leByte CMD_WRITE 2 + 16777216 * leByte CMD_WRITE 3 = CMD_WRITE) ∧
    (leByte CMD_READ 0 + 256 * leByte CMD_READ 1 +
      65536 * leByte CMD_READ 2 + 16777216 * leByte CMD_READ 3 = CMD_READ) ∧
    ((writeFrame p).drop 4).take 4 =
      [leByte LED_BASE_ADDR 0, leByte LED_BASE_ADDR 1,
       leByte LED_BASE_ADDR 2, leByte LED_BASE_ADDR 3] ∧
    (readCmdFrame.drop 4).take 4 =
      [leByte LED_BASE_ADDR 0, leByte LED_BASE_ADDR 1,
       leByte LED_BASE_ADDR 2, leByte LED_BASE_ADDR 3] ∧
    (leByte LED_BASE_ADDR 0 + 256 * leByte LED_BASE_ADDR 1 +
      65536 * leByte LED_BASE_ADDR 2 + 16777216 * leByte LED_BASE_ADDR 3
      = LED_BASE_ADDR) ∧
    byteAt (writeFrame p) 8 < 16 ∧
    (writeFrame p).drop 9 = [0, 0, 0] ∧
    readCmdFrame.drop 8 = [0, 0, 0, 0] := by
  refine ⟨by simp [writeFrame], by simp [readCmdFrame], ?_, ?_,
    by simp [writeFrame], by simp [readCmdFrame], by decide, by decide,
    by simp [writeFrame], by simp [readCmdFrame], by decide,
    ?_, by simp [writeFrame], by simp [readCmdFrame]⟩
  · intro b hb
    simp [writeFrame] at hb
    rcases hb with h | h | h | h | h | h | h | h | h | h <;>
      first
        | (rw [h]; exact leByte_lt _ _)
        | (rw [h]; omega)
  · intro b hb
    simp [readCmdFrame] at hb
    rcases hb with h | h | h | h | h | h | h | h | h <;>
      first
        | (rw [h]; exact leByte_lt _ _)
        | (rw [h]; omega)
  · rw [writeFrame_byte8]
    omega

/-- C3 (code bug): the claimed cycle Idle, Shift-IR, Idle, Shift-DR, Idle
does not happen under the standard TAP state machine. From Idle the two
PutTmsBits calls of jtag_shift_ir leave the TAP in Run-Test/Idle, not
Shift-IR, when the instruction bits are clocked (and no 2-bit TMS
sequence can reach Shift-IR from the Test-Logic-Reset state the 5-bit
reset establishes, under any bit order); the full IR sequence ends in
Select-IR-Scan, not Idle. The DR entry sequence does reach Shift-DR, but
the full DR sequence ends in Update-DR, not Idle, contradicting the
comments Run-Test-Idle to Shift-IR, Update-IR to Idle and Update-DR to
Idle in the C source. -/
theorem C3_tap_divergence :
    tapRun TapState.RunTestIdle (tmsBits 0x1F 5) = TapState.TestLogicReset ∧
    tapRun TapState.RunTestIdle (tmsBits 0x1F 5 ++ tmsBits 0x01 2)
      = TapState.RunTestIdle ∧
    tapRun TapState.RunTestIdle (tmsBits 0x1F 5 ++ tmsBits 0x01 2)
      ≠ TapState.ShiftIR ∧
    (∀ b1 b2 : Bool, tapRun TapState.TestLogicReset [b1, b2] ≠ TapState.ShiftIR) ∧
    tapRun TapState.RunTestIdle shiftIrTms = TapState.SelectIRScan ∧
    tapRun TapState.RunTestIdle shiftIrTms ≠ TapState.RunTestIdle ∧
    tapRun TapState.RunTestIdle (tmsBits 0x01 3) = TapState.ShiftDR ∧
    tapRun TapState.RunTestIdle shiftDrTms = TapState.UpdateDR ∧
    tapRun TapState.RunTestIdle shiftDrTms ≠ TapState.RunTestIdle := by
  decide

/-- C4 counterexample: led_write with the out-of-range pattern 0x10 on a
connected session with an always-succeeding transport returns success,
not an error, and issues transport calls, so no rejection happens before
the transport is driven. -/
theorem C4_counterexample :
    (led_write env0 0 (some (JtagHandle.mk true)) 0x10).1 = 0 ∧
    (led_write env0 0 (some (JtagHandle.mk true)) 0x10).2.1 ≠ [] := by
  decide

/-- C4 amended: led_write performs no range check and raises no frame
width violation; an out-of-range value such as 0x10 is masked to its low
nibble, the frame issued is the one for led_write 0, and the transport
shifts proceed (the call list is nonempty on a connected session). -/
theorem C4_no_range_check (env : TransportEnv) (idx : Nat) (h : JtagHandle)
    (hc : h.is_connected = true) :
    led_write env idx (some h) 0x10 = led_write env idx (some h) 0 ∧
    (led_write env idx (some h) 0x10).2.1 ≠ [] := by
  have h16 : writeFrame 0x10 = writeFrame 0 := by
    rw [writeFrame_mod]
  constructor
  · simp only [led_write, h16]
  · by_cases e0 : env.ok idx = false <;>
    by_cases e1 : env.ok (idx + 1) = false <;>
    by_cases e2 : env.ok (idx + 2) = false <;>
    by_cases e3 : env.ok (idx + 3) = false <;>
    by_cases e4 : env.ok (idx + 4) = false <;>
    by_cases e5 : env.ok (idx + 5) = false <;>
    by_cases e6 : env.ok (idx + 6) = false <;>
    simp_all [led_write, jtag_shift_ir, jtag_shift_dr, Nat.add_assoc]

theorem C4_no_range_check_witness :
    (JtagHandle.mk true).is_connected = true ∧
    (led_write env0 0 (some (JtagHandle.mk true)) 0x10
        = led_write env0 0 (some (JtagHandle.mk true)) 0 ∧
      (led_write env0 0 (some (JtagHandle.mk true)) 0x10).2.1 ≠ []) :=
  ⟨rfl, C4_no_range_check env0 0 (JtagHandle.mk true) rfl⟩

/-- C5: on a connected session, led_write succeeds exactly when all seven
transport calls of its IR shift (four) and DR shift (three) succeed, and
otherwise returns -1, so it fails exactly when the IR or the DR shift
fails with the error propagated unchanged; when the IR shift fails,
led_write returns exactly the IR shift result and issues no DR calls.
led_read behaves the same way on its seven calls, and when its IR shift
fails its call list is exactly the IR shift call list: the operation
stops immediately, with no retry and no recovery. -/
theorem C5_error_propagation (env : TransportEnv) (idx : Nat) (h : JtagHandle) (p : Nat)
    (hc : h.is_connected = true) :
    ((led_write env idx (some h) p).1 = 0 ↔
      (env.ok idx = true ∧ env.ok (idx + 1) = true ∧ env.ok (idx + 2) = true ∧
       env.ok (idx + 3) = true ∧ env.ok (idx + 4) = true ∧ env.ok (idx + 5) = true ∧
       env.ok (idx + 6) = true)) ∧
    ((led_write env idx (some h) p).1 = 0 ∨ (led_write env idx (some h) p).1 = -1) ∧
    ((jtag_shift_ir env idx (some h) USER1_INSTRUCTION).1 ≠ 0 →
      led_write env idx (some h) p
        = (-1, (jtag_shift_ir env idx (some h) USER1_INSTRUCTION).2.1,
            (jtag_shift_ir env idx (some h) USER1_INSTRUCTION).2.2)) ∧
    ((led_read env idx (some h) false).1 = 0 ↔
      (env.ok idx = true ∧ env.ok (idx + 1) = true ∧ env.ok (idx + 2) = true ∧
       env.ok (idx + 3) = true ∧ env.ok (idx + 4) = true ∧ env.ok (idx + 5) = true ∧
       env.ok (idx + 6) = true)) ∧
    ((jtag_shift_ir env idx (some h) USER1_INSTRUCTION).1 ≠ 0 →
      (led_read env idx (some h) false).1 = -1 ∧
      (led_read env idx (some h) false).2.2.1
        = (jtag_shift_ir env idx (some h) USER1_INSTRUCTION).2.1) := by
  by_cases e0 : env.ok idx = false <;>
  by_cases e1 : env.ok (idx + 1) = false <;>
  by_cases e2 : env.ok (idx + 2) = false <;>
  by_cases e3 : env.ok (idx + 3) = false <;>
  by_cases e4 : env.ok (idx + 4) = false <;>
  by_cases e5 : env.ok (idx + 5) = false <;>
  by_cases e6 : env.ok (idx + 6) = false <;>
  simp_all [led_write, led_read, jtag_shift_ir, jtag_shift_dr, Nat.add_assoc]

theorem C5_error_propagation_witness :
    (JtagHandle.mk true).is_connected = true ∧
    (((led_write env0 0 (some (JtagHandle.mk true)) 5).1 = 0 ↔
      (env0.ok 0 = true ∧ env0.ok (0 + 1) = true ∧ env0.ok (0 + 2) = true ∧
       env0.ok (0 + 3) = true ∧ env0.ok (0 + 4) = true ∧ env0.ok (0 + 5) = true ∧
       env0.ok (0 + 6) = true)) ∧
    ((led_write env0 0 (some (JtagHandle.mk true)) 5).1 = 0 ∨
      (led_write env0 0 (some (JtagHandle.mk true)) 5).1 = -1) ∧
    ((jtag_shift_ir env0 0 (some (JtagHandle.mk true)) USER1_INSTRUCTION).1 ≠ 0 →
      led_write env0 0 (some (JtagHandle.mk true)) 5
        = (-1, (jtag_shift_ir env0 0 (some (JtagHandle.mk true)) USER1_INSTRUCTION).2.1,
            (jtag_shift_ir env0 0 (some (JtagHandle.mk true)) USER1_INSTRUCTION).2.2)) ∧
    ((led_read env0 0 (some (JtagHandle.mk true)) false).1 = 0 ↔
      (env0.ok 0 = true ∧ env0.ok (0 + 1) = true ∧ env0.ok (0 + 2) = true ∧
       env0.ok (0 + 3) = true ∧ env0.ok (0 + 4) = true ∧ env0.ok (0 + 5) = true ∧
       env0.ok (0 + 6) = true)) ∧
    ((jtag_shift_ir env0 0 (some (JtagHandle.mk true)) USER1_INSTRUCTION).1 ≠ 0 →
      (led_read env0 0 (some (JtagHandle.mk true)) false).1 = -1 ∧
      (led_read env0 0 (some (JtagHandle.mk true)) false).2.2.1
        = (jtag_shift_ir env0 0 (some (JtagHandle.mk true)) USER1_INSTRUCTION).2.1)) :=
  ⟨rfl, C5_error_propagation env0 0 (JtagHandle.mk true) 5 rfl⟩

/-- C6: every TDI call issued by jtag_shift_ir presents exactly IR_LENGTH
bits to the transport, whatever instruction value is passed in. -/
theorem C6_ir_width (env : TransportEnv) (idx : Nat) (handle : Option JtagHandle)
    (instr : Nat) (data : List Nat) (n : Nat) (cap : Bool)
    (hmem : TransportCall.tdiBitsCall data n cap
      ∈ (jtag_shift_ir env idx handle instr).2.1) :
    n = IR_LENGTH := by
  cases handle with
  | none => simp [jtag_shift_ir] at hmem
  | some h =>
    by_cases hc : h.is_connected = false
    · simp [jtag_shift_ir, hc] at hmem
    · by_cases e0 : env.ok idx = false <;>
      by_cases e1 : env.ok (idx + 1) = false <;>
      by_cases e2 : env.ok (idx + 2) = false <;>
      by_cases e3 : env.ok (idx + 3) = false <;>
      simp_all [jtag_shift_ir]

theorem C6_ir_width_witness :
    (TransportCall.tdiBitsCall [171] 6 false
      ∈ (jtag_shift_ir env0 0 (some (JtagHandle.mk true)) 171).2.1) ∧
    (6 : Nat) = IR_LENGTH :=
  ⟨by decide,
   C6_ir_width env0 0 (some (JtagHandle.mk true)) 171 [171] 6 false (by decide)⟩

/-- C7: disconnect_device on a null handle or a session whose connected
flag is cleared returns 0 without invoking transport teardown; on a
connected session it returns 0, invokes teardown once and clears the
flag, so a second disconnect of the returned handle performs no
teardown. -/
theorem C7_disconnect_idempotent (h : JtagHandle) (hnc : h.is_connected = false)
    (h2 : JtagHandle) (hc : h2.is_connected = true) :
    disconnect_device none = (0, none, false) ∧
    disconnect_device (some h) = (0, some h, false) ∧
    disconnect_device (some h2) = (0, some (JtagHandle.mk false), true) ∧
    disconnect_device (some (JtagHandle.mk false))
      = (0, some (JtagHandle.mk false), false) := by
  refine ⟨rfl, ?_, ?_, ?_⟩ <;> simp [disconnect_device, hnc, hc]

theorem C7_disconnect_idempotent_witness :
    (JtagHandle.mk false).is_connected = false ∧
    (JtagHandle.mk true).is_connected = true ∧
    (disconnect_device none = (0, none, false) ∧
     disconnect_device (some (JtagHandle.mk false))
       = (0, some (JtagHandle.mk false), false) ∧
     disconnect_device (some (JtagHandle.mk true))
       = (0, some (JtagHandle.mk false), true) ∧
     disconnect_device (some (JtagHandle.mk false))
       = (0, some (JtagHandle.mk false), false)) :=
  ⟨rfl, rfl, C7_disconnect_idempotent (JtagHandle.mk false) rfl (JtagHandle.mk true) rfl⟩

/-- C8: the exit code of main is 1 exactly when manager open fails, no
device is enumerated, or connect fails; it is 0 exactly when all three
succeed, whatever the selected action (test, write, read or usage) does
on the transport. -/
theorem C8_exit_codes (openOk : Bool) (deviceCount : Nat) (connectOk : Bool)
    (env : TransportEnv) (act : MainAction) :
    ((main_run openOk deviceCount connectOk env act).1 = 1 ↔
      (openOk = false ∨ deviceCount = 0 ∨ connectOk = false)) ∧
    ((main_run openOk deviceCount connectOk env act).1 = 0 ↔
      (openOk = true ∧ deviceCount ≠ 0 ∧ connectOk = true)) := by
  cases openOk <;> cases connectOk <;> cases deviceCount <;>
    simp [main_run]

/-- C9 (implicit): led_write builds its frame from the low nibble only:
the frame for any pattern equals the frame for its low 4 bits, led_write
behaves identically on p and on p % 16 for every environment and handle,
and in particular led_write of 0x10 equals led_write of 0. -/
theorem C9_nibble_mask (env : TransportEnv) (idx : Nat) (handle : Option JtagHandle)
    (p : Nat) :
    writeFrame p = writeFrame (p % 16) ∧
    led_write env idx handle p = led_write env idx handle (p % 16) ∧
    led_write env idx handle 0x10 = led_write env idx handle 0 := by
  have h16 : writeFrame 0x10 = writeFrame 0 := by
    rw [writeFrame_mod]
  refine ⟨writeFrame_mod p, ?_, ?_⟩
  · cases handle with
    | none => rfl
    | some h => simp only [led_write, writeFrame_mod p]
  · cases handle with
    | none => rfl
    | some h => simp only [led_write, h16]

/-- C10 (implicit): with a null handle or a disconnected session, each of
jtag_shift_ir, jtag_shift_dr, led_write and led_read returns -1 having
issued no transport call and leaving the call index unchanged, and
led_read with a null output pointer does the same on every handle. -/
theorem C10_guard_checks (env : TransportEnv) (idx : Nat) (handle : Option JtagHandle)
    (instr : Nat) (tdi : List Nat) (cap : Bool) (n p : Nat)
    (hbad : handle = none ∨ ∃ h, handle = some h ∧ h.is_connected = false) :
    jtag_shift_ir env idx handle instr = (-1, [], idx) ∧
    jtag_shift_dr env idx handle tdi cap n = (-1, none, [], idx) ∧
    led_write env idx handle p = (-1, [], idx) ∧
    led_read env idx handle false = (-1, none, [], idx) ∧
    (∀ g : Option JtagHandle, led_read env idx g true = (-1, none, [], idx)) := by
  have hg : ∀ g : Option JtagHandle, led_read env idx g true = (-1, none, [], idx) := by
    intro g
    cases g with
    | none => rfl
    | some gh =>
      by_cases hgc : gh.is_connected = false <;> simp [led_read, hgc]
  rcases hbad with hn | ⟨h, rfl, hc⟩
  · subst hn
    exact ⟨rfl, rfl, rfl, rfl, hg⟩
  · exact ⟨by simp [jtag_shift_ir, hc], by simp [jtag_shift_dr, hc],
      by simp [led_write, hc], by simp [led_read, hc], hg⟩

theorem C10_guard_checks_witness :
    ((none : Option JtagHandle) = none ∨
      ∃ h, (none : Option JtagHandle) = some h ∧ h.is_connected = false) ∧
    (jtag_shift_ir env0 0 none 2 = (-1, [], 0) ∧
     jtag_shift_dr env0 0 none [] false 96 = (-1, none, [], 0) ∧
     led_write env0 0 none 5 = (-1, [], 0) ∧
     led_read env0 0 none false = (-1, none, [], 0) ∧
     (∀ g : Option JtagHandle, led_read env0 0 g true = (-1, none, [], 0))) :=
  ⟨Or.inl rfl, C10_guard_checks env0 0 none 2 [] false 96 5 (Or.inl rfl)⟩
